import Mathlib

/-
Verification of the Devil Run platformer core (src/config.py, src/hazards.py,
src/level_manager.py, src/main.py) against its natural-language specification.

Modelling conventions for the shallow embedding:
* pygame.Rect is an axis-aligned box of machine integers, embedded as four ℤ
  fields.  pygame 2 `colliderect` semantics: rects with a zero width or height
  never collide, otherwise strict-overlap on both axes.
* Python floats are embedded as exact rationals ℚ.  Python `int(x)` truncates
  toward zero (`pyInt`).  Python `%` on ints is Euclidean remainder, which is
  Lean's `%` on ℤ.  C integer division inside pygame (used by `inflate` and
  the `center` setter) truncates toward zero (`Int.tdiv`).
* `math.sin`, `math.cos` and `math.radians` are transcendental float routines;
  they are embedded as an abstract `FloatOracle` of functions ℚ → ℚ that the
  relevant update functions take as a parameter and the theorems quantify
  over, so every proved property holds for the actual float implementations.
* The random, draw-only decoration sprinkles of `LevelManager.load_level`
  (grass/stone/tree dicts consumed only by rendering) are not part of the
  state model; no claim mentions them.
-/

namespace DevilRun

/-- Python `int()` applied to a rational: truncation toward zero. -/
def pyInt (q : ℚ) : ℤ := if 0 ≤ q then ⌊q⌋ else ⌈q⌉

/-- C integer division (truncation toward zero), as used inside pygame. -/
def cdiv (a b : ℤ) : ℤ := Int.tdiv a b

/-- pygame.Rect: axis-aligned rectangle with integer position and size. -/
structure Rect where
  x : ℤ
  y : ℤ
  w : ℤ
  h : ℤ
deriving DecidableEq, Inhabited

/-- Abbreviation used by the generated level data. -/
def r4 (x y w h : ℤ) : Rect := ⟨x, y, w, h⟩

def Rect.left (r : Rect) : ℤ := r.x

def Rect.top (r : Rect) : ℤ := r.y

def Rect.right (r : Rect) : ℤ := r.x + r.w

def Rect.bottom (r : Rect) : ℤ := r.y + r.h

/-- pygame `Rect.centerx`: `x + (w >> 1)`; the arithmetic shift is floor
division by 2, which is `/` on ℤ. -/
def Rect.centerx (r : Rect) : ℤ := r.x + r.w / 2

/-- pygame 2 `Rect.colliderect`: zero-sized rects never collide; otherwise
strict overlap on both axes. -/
def Rect.colliderect (a b : Rect) : Bool :=
  a.w ≠ 0 && a.h ≠ 0 && b.w ≠ 0 && b.h ≠ 0 &&
  a.x < b.x + b.w && a.x + a.w > b.x &&
  a.y < b.y + b.h && a.y + a.h > b.y

/-- pygame `Rect.inflate(dx, dy)`: grows the size, keeping the center (up to
the C division's rounding). -/
def Rect.inflate (r : Rect) (dx dy : ℤ) : Rect :=
  { x := r.x - cdiv dx 2, y := r.y - cdiv dy 2, w := r.w + dx, h := r.h + dy }

/-- Python truthiness of a pygame Rect: falsy iff its width or height is 0. -/
def Rect.truthy (r : Rect) : Bool := r.w ≠ 0 && r.h ≠ 0

/-- Truthiness of an `Optional[pygame.Rect]` (None is falsy). -/
def optTruthy : Option Rect → Bool
  | none => false
  | some r => r.truthy

/-- Collision of an optional player rect against a rect (false for None). -/
def optCollide (pr : Option Rect) (r : Rect) : Bool :=
  match pr with
  | none => false
  | some q => q.colliderect r

/-- Oracle standing for the float routines `math.sin`, `math.cos`,
`math.radians`; theorems quantify over it. -/
structure FloatOracle where
  sin : ℚ → ℚ
  cos : ℚ → ℚ
  radians : ℚ → ℚ

-- ---------------------------------------------------------------------------
-- config.py constants used by the core
-- ---------------------------------------------------------------------------

def SCREEN_WIDTH : ℤ := 960
def SCREEN_HEIGHT : ℤ := 700
def TILE_SIZE : ℤ := 40
def PLAYER_SPEED : ℚ := 8
def JUMP_FORCE : ℚ := -22
def GRAVITY : ℚ := 8/10
def MAX_FALL_SPEED : ℚ := 14
def COYOTE_TIME : ℚ := 15/100
def JUMP_BUFFER_TIME : ℚ := 15/100
def LEVEL_SCROLL_LENGTH : ℤ := 4
def GROUND_Y : ℤ := SCREEN_HEIGHT - TILE_SIZE
def LEVEL_LENGTH : ℤ := SCREEN_WIDTH * LEVEL_SCROLL_LENGTH

-- ---------------------------------------------------------------------------
-- hazards.py
-- ---------------------------------------------------------------------------

/-- hazards.OscillatingHazard state. -/
structure OscillatingHazard where
  base_rect : Rect
  rect : Rect
  axis : String
  amplitude : ℚ
  speed : ℚ
  timer : ℚ
deriving DecidableEq

def mkOscillatingHazard (rect_tuple : Rect) (axis : String) (amplitude speed : ℚ) :
    OscillatingHazard :=
  { base_rect := rect_tuple, rect := rect_tuple, axis := axis,
    amplitude := amplitude, speed := speed, timer := 0 }

/-- OscillatingHazard.update: advances the phase timer and writes the sine
offset into the configured axis of `rect` (unused player rect parameter kept
from the source signature). -/
def OscillatingHazard.update (F : FloatOracle) (o : OscillatingHazard)
    (dt : ℚ) (_player_rect : Option Rect) : OscillatingHazard :=
  let timer := o.timer + dt
  let offset := F.sin (timer * o.speed) * o.amplitude
  if o.axis = "x" then
    { o with timer := timer, rect := { o.rect with x := pyInt ((o.base_rect.x : ℚ) + offset) } }
  else
    { o with timer := timer, rect := { o.rect with y := pyInt ((o.base_rect.y : ℚ) + offset) } }

def OscillatingHazard.collides (o : OscillatingHazard) (rect : Rect) : Bool :=
  o.rect.colliderect (rect.inflate (-8) (-8))

/-- hazards.TriggerSpike state. -/
structure TriggerSpike where
  trigger_rect : Rect
  rest_rect : Rect
  rect : Rect
  hidden_y : ℤ
  target_y : ℤ
  rise_speed : ℚ
  active : Bool
deriving DecidableEq

/-- TriggerSpike.__init__ with the defaults used by the level manager
(rise_pixels = 40, rise_speed = 140.0): the spike starts hidden, moved down
by rise_pixels. -/
def mkTriggerSpike (trigger_rect spike_rect : Rect) : TriggerSpike :=
  { trigger_rect := trigger_rect, rest_rect := spike_rect,
    rect := { spike_rect with y := spike_rect.y + 40 },
    hidden_y := spike_rect.y + 40, target_y := spike_rect.y,
    rise_speed := 140, active := false }

/-- TriggerSpike.update: activate when the (truthy) player rect hits the
trigger zone, then rise toward target_y, never overshooting. -/
def TriggerSpike.update (t : TriggerSpike) (dt : ℚ) (player_rect : Option Rect) :
    TriggerSpike :=
  let t1 := if t.active = false ∧ optTruthy player_rect = true ∧
               optCollide player_rect t.trigger_rect = true
            then { t with active := true } else t
  if t1.active = true ∧ t1.target_y < t1.rect.y then
    { t1 with rect := { t1.rect with
        y := max t1.target_y (t1.rect.y - pyInt (t1.rise_speed * dt)) } }
  else t1

def TriggerSpike.collides (t : TriggerSpike) (rect : Rect) : Bool :=
  t.active && t.rect.colliderect (rect.inflate (-8) (-8))

/-- hazards.SwingingAxe state.  `swing_degrees` is stored; the radian value
`math.radians(swing_degrees)` is produced by the float oracle at use sites
(`radians` is pure, so this matches computing it once at construction). -/
structure SwingingAxe where
  pivot : ℚ × ℚ
  length : ℤ
  blade_size : ℤ × ℤ
  swing_degrees : ℚ
  speed : ℚ
  time : ℚ
  rect : Rect
deriving DecidableEq

def mkSwingingAxe (pivot : ℤ × ℤ) (length : ℤ) (swing_degrees speed : ℚ) :
    SwingingAxe :=
  { pivot := ((pivot.1 : ℚ), (pivot.2 : ℚ)), length := length,
    blade_size := (30, 60), swing_degrees := swing_degrees, speed := speed,
    time := 0, rect := ⟨0, 0, 30, 60⟩ }

/-- SwingingAxe.update: blade center from pivot + length·(sin, cos) of the
oscillating angle; pygame `rect.center =` setter uses C division by 2. -/
def SwingingAxe.update (F : FloatOracle) (a : SwingingAxe) (dt : ℚ)
    (_player_rect : Option Rect) : SwingingAxe :=
  let time := a.time + dt
  let angle := F.sin (time * a.speed) * F.radians a.swing_degrees
  let blade_center_x := a.pivot.1 + F.sin angle * (a.length : ℚ)
  let blade_center_y := a.pivot.2 + F.cos angle * (a.length : ℚ)
  { a with
    time := time
    rect := { a.rect with
      x := pyInt blade_center_x - cdiv a.rect.w 2
      y := pyInt blade_center_y - cdiv a.rect.h 2 } }

def SwingingAxe.collides (a : SwingingAxe) (rect : Rect) : Bool :=
  a.rect.colliderect (rect.inflate (-8) (-8))

/-- hazards.ChasingHazard state. -/
structure ChasingHazard where
  pos : ℚ × ℚ
  speed : ℚ
  max_time : ℚ
  timer : ℚ
  is_active : Bool
  rect : Rect
deriving DecidableEq

def mkChasingHazard (spawn_pos : ℤ × ℤ) (speed max_time : ℚ) : ChasingHazard :=
  { pos := ((spawn_pos.1 : ℚ), (spawn_pos.2 : ℚ)), speed := speed,
    max_time := max_time, timer := max_time, is_active := true,
    rect := ⟨0, 0, TILE_SIZE, TILE_SIZE⟩ }

/-- ChasingHazard.update: countdown; while alive and given a truthy player
rect, move horizontally toward the player's center-x, clamped by speed·dt,
then rewrite the collision rect from the float position. -/
def ChasingHazard.update (c : ChasingHazard) (dt : ℚ) (player_rect : Option Rect) :
    ChasingHazard :=
  if c.is_active = false then c
  else
    let timer := c.timer - dt
    if timer ≤ 0 then { c with timer := timer, is_active := false }
    else
      match player_rect with
      | some r =>
        if r.truthy = true then
          let target_x : ℚ := (r.centerx : ℚ)
          let direction_x := target_x - c.pos.1
          let posx :=
            if 0 < direction_x then c.pos.1 + min direction_x (c.speed * dt)
            else if direction_x < 0 then c.pos.1 + max direction_x (-(c.speed * dt))
            else c.pos.1
          { c with
            timer := timer
            pos := (posx, c.pos.2)
            rect := { c.rect with
              x := pyInt (posx - (c.rect.w : ℚ) / 2), y := pyInt c.pos.2 } }
        else { c with timer := timer }
      | none => { c with timer := timer }

def ChasingHazard.collides (c : ChasingHazard) (rect : Rect) : Bool :=
  c.is_active && c.rect.colliderect (rect.inflate (-8) (-8))

/-- hazards.DisappearingPlatform state. -/
structure DisappearingPlatform where
  trigger_rect : Rect
  target_platform_rect : Rect
  is_removed : Bool
deriving DecidableEq

/-- DisappearingPlatform.update: one-way latch when the truthy player rect
enters the trigger zone. -/
def DisappearingPlatform.update (d : DisappearingPlatform) (_dt : ℚ)
    (player_rect : Option Rect) : DisappearingPlatform :=
  if d.is_removed = false ∧ optTruthy player_rect = true ∧
     optCollide player_rect d.trigger_rect = true
  then { d with is_removed := true } else d

/-- hazards.CrushingHazard state (state strings as in the source). -/
structure CrushingHazard where
  base_rect : Rect
  rect : Rect
  slam_height : ℤ
  speed : ℚ
  return_speed : ℚ
  state : String
  target_y : ℤ
deriving DecidableEq

def mkCrushingHazard (rect_tuple : Rect) (slam_height : ℤ) : CrushingHazard :=
  { base_rect := rect_tuple, rect := rect_tuple, slam_height := slam_height,
    speed := 600, return_speed := 100, state := "IDLE",
    target_y := rect_tuple.y + slam_height }

/-- CrushingHazard.update: IDLE → SLAMMING when the player's center-x is
within 100px; SLAMMING descends to target, then RETURNING ascends to base. -/
def CrushingHazard.update (c : CrushingHazard) (dt : ℚ) (player_rect : Option Rect) :
    CrushingHazard :=
  if c.state = "IDLE" then
    match player_rect with
    | some r =>
      if r.truthy = true ∧ |r.centerx - c.rect.centerx| < 100 then
        { c with state := "SLAMMING" }
      else c
    | none => c
  else if c.state = "SLAMMING" then
    let y := c.rect.y + pyInt (c.speed * dt)
    if c.target_y ≤ y then
      { c with rect := { c.rect with y := c.target_y }, state := "RETURNING" }
    else { c with rect := { c.rect with y := y } }
  else if c.state = "RETURNING" then
    let y := c.rect.y - pyInt (c.return_speed * dt)
    if y ≤ c.base_rect.y then
      { c with rect := { c.rect with y := c.base_rect.y }, state := "IDLE" }
    else { c with rect := { c.rect with y := y } }
  else c

def CrushingHazard.collides (c : CrushingHazard) (rect : Rect) : Bool :=
  c.rect.colliderect rect

-- ---------------------------------------------------------------------------
-- level_manager.py: blueprint data
-- ---------------------------------------------------------------------------

/-- One entry of a blueprint's "oscillators" list. -/
structure OscEntry where
  rect : Rect
  axis : String
  amplitude : ℚ
  speed : ℚ
deriving DecidableEq

/-- One entry of a blueprint's "triggers" list. -/
structure TriggerEntry where
  trigger : Rect
  spike : Rect
deriving DecidableEq

/-- One entry of a blueprint's "axes" list. -/
structure AxeEntry where
  pivot : ℤ × ℤ
  length : ℤ
  swing_degrees : ℚ
  speed : ℚ
deriving DecidableEq

/-- One entry of a blueprint's "chasers" list. -/
structure ChaserEntry where
  spawn : ℤ × ℤ
  speed : ℚ
  max_time : ℚ
deriving DecidableEq

/-- One entry of a blueprint's "disappear" list. -/
structure DisEntry where
  trigger : Rect
  platform : Rect
deriving DecidableEq

/-- One entry of a blueprint's "crushers" list. -/
structure CrusherEntry where
  rect : Rect
  slam_height : ℤ
deriving DecidableEq

/-- A static level blueprint (immutable data).  Coordinates are the values of
the source's R(x, y, w, h) = (40x, 660 - 40y, 40w, 40h). -/
structure Blueprint where
  id : ℤ
  name : String
  spawn : ℤ × ℤ
  goal : Rect
  platforms : List Rect
  static_traps : List Rect
  oscillators : List OscEntry
  triggers : List TriggerEntry
  axes : List AxeEntry
  chasers : List ChaserEntry
  disappear : List DisEntry
  crushers : List CrusherEntry
deriving Inhabited

def LEVEL_BLUEPRINTS : List Blueprint := [
  { id := 1
    name := "Level 1: The Descent"
    spawn := (80, 580)
    goal := r4 3000 580 80 120
    platforms := [r4 0 620 400 40, r4 480 540 120 40, r4 720 460 120 40, r4 960 380 200 40, r4 1400 500 200 40, r4 1800 580 400 40, r4 2400 620 600 40]
    static_traps := [r4 400 620 80 40, r4 1200 620 200 40, r4 2200 620 200 40]
    oscillators := [{ rect := r4 1600 420 80 40, axis := "y", amplitude := (100 : ℚ), speed := (3 : ℚ) }, { rect := r4 600 460 80 40, axis := "x", amplitude := (60 : ℚ), speed := (5/2 : ℚ) }]
    triggers := [{ trigger := r4 960 340 80 80, spike := r4 1040 380 40 40 }, { trigger := r4 2720 580 80 80, spike := r4 2800 620 40 40 }]
    axes := [{ pivot := (1200, 260), length := 120, swing_degrees := (60 : ℚ), speed := (3/2 : ℚ) }, { pivot := (2000, 340), length := 100, swing_degrees := (45 : ℚ), speed := (2 : ℚ) }]
    chasers := [{ spawn := (1800, 340), speed := (100 : ℚ), max_time := (3 : ℚ) }, { spawn := (2600, 460), speed := (120 : ℚ), max_time := (4 : ℚ) }]
    disappear := [{ trigger := r4 1400 460 80 80, platform := r4 1400 500 200 40 }]
    crushers := [{ rect := r4 2000 180 80 80, slam_height := 380 }, { rect := r4 400 260 80 80, slam_height := 300 }] },
  { id := 2
    name := "Level 2: The Grinder"
    spawn := (80, 580)
    goal := r4 3400 340 80 120
    platforms := [r4 0 620 400 40, r4 600 540 200 40, r4 1000 460 160 40, r4 1400 380 160 40, r4 1800 620 600 40, r4 2600 500 200 40, r4 3000 420 480 40]
    static_traps := [r4 400 620 1400 40, r4 2400 620 600 40]
    oscillators := [{ rect := r4 800 500 80 40, axis := "y", amplitude := (80 : ℚ), speed := (4 : ℚ) }, { rect := r4 1600 420 80 40, axis := "x", amplitude := (120 : ℚ), speed := (5/2 : ℚ) }]
    triggers := [{ trigger := r4 1800 580 200 80, spike := r4 1880 580 40 40 }, { trigger := r4 3000 380 120 80, spike := r4 3120 420 40 40 }]
    axes := [{ pivot := (2200, 260), length := 150, swing_degrees := (90 : ℚ), speed := (2 : ℚ) }, { pivot := (1400, 180), length := 120, swing_degrees := (60 : ℚ), speed := (5/2 : ℚ) }]
    chasers := [{ spawn := (2800, 380), speed := (180 : ℚ), max_time := (3 : ℚ) }, { spawn := (400, 420), speed := (150 : ℚ), max_time := (5 : ℚ) }]
    disappear := [{ trigger := r4 1000 420 80 80, platform := r4 1000 460 160 40 }]
    crushers := [{ rect := r4 1200 180 120 80, slam_height := 380 }, { rect := r4 2000 180 80 80, slam_height := 400 }, { rect := r4 3200 260 80 80, slam_height := 200 }] },
  { id := 3
    name := "Level 3: Trust Issues"
    spawn := (80, 580)
    goal := r4 4000 620 120 120
    platforms := [r4 0 620 600 40, r4 800 540 400 40, r4 1600 460 400 40, r4 2400 540 400 40, r4 3200 620 800 40]
    static_traps := [r4 600 620 200 40, r4 1200 620 400 40, r4 2000 620 400 40, r4 2800 620 400 40]
    oscillators := [{ rect := r4 1000 420 80 40, axis := "y", amplitude := (120 : ℚ), speed := (7/2 : ℚ) }, { rect := r4 2200 500 80 40, axis := "x", amplitude := (80 : ℚ), speed := (11/5 : ℚ) }]
    triggers := [{ trigger := r4 1600 420 120 80, spike := r4 1720 460 40 40 }, { trigger := r4 3400 580 120 80, spike := r4 3520 620 40 40 }, { trigger := r4 400 540 80 80, spike := r4 480 620 40 40 }]
    axes := [{ pivot := (2000, 260), length := 140, swing_degrees := (80 : ℚ), speed := (2 : ℚ) }, { pivot := (3000, 180), length := 120, swing_degrees := (60 : ℚ), speed := (5/2 : ℚ) }]
    chasers := [{ spawn := (800, 260), speed := (120 : ℚ), max_time := (3 : ℚ) }, { spawn := (3600, 460), speed := (150 : ℚ), max_time := (4 : ℚ) }]
    disappear := [{ trigger := r4 1600 660 400 400, platform := r4 1600 460 400 40 }, { trigger := r4 2400 660 400 400, platform := r4 2400 540 400 40 }]
    crushers := [{ rect := r4 400 180 80 80, slam_height := 400 }] },
  { id := 4
    name := "Level 4: The Gauntlet"
    spawn := (80, 580)
    goal := r4 5200 580 80 120
    platforms := [r4 0 620 400 40, r4 1000 380 240 40, r4 2000 420 1400 40, r4 3800 540 480 40, r4 4600 620 800 40]
    static_traps := [r4 400 620 200 40, r4 1640 620 360 40, r4 3400 420 400 40, r4 4280 540 320 40]
    oscillators := [{ rect := r4 800 340 80 40, axis := "y", amplitude := (60 : ℚ), speed := (5 : ℚ) }, { rect := r4 2800 260 80 40, axis := "y", amplitude := (80 : ℚ), speed := (4 : ℚ) }, { rect := r4 4200 460 80 40, axis := "x", amplitude := (100 : ℚ), speed := (3 : ℚ) }]
    triggers := [{ trigger := r4 2000 380 80 80, spike := r4 2080 420 40 40 }, { trigger := r4 2600 380 80 80, spike := r4 2680 420 40 40 }, { trigger := r4 3200 380 80 80, spike := r4 3280 420 40 40 }, { trigger := r4 4400 580 80 80, spike := r4 4480 620 40 40 }]
    axes := [{ pivot := (1800, 140), length := 160, swing_degrees := (80 : ℚ), speed := (5/2 : ℚ) }, { pivot := (3600, 220), length := 140, swing_degrees := (60 : ℚ), speed := (3 : ℚ) }, { pivot := (4800, 260), length := 120, swing_degrees := (90 : ℚ), speed := (7/2 : ℚ) }]
    chasers := [{ spawn := (2200, 180), speed := (220 : ℚ), max_time := (4 : ℚ) }, { spawn := (4000, 420), speed := (240 : ℚ), max_time := (3 : ℚ) }, { spawn := (800, 460), speed := (200 : ℚ), max_time := (4 : ℚ) }, { spawn := (5000, 340), speed := (260 : ℚ), max_time := (5 : ℚ) }]
    disappear := [{ trigger := r4 480 500 120 80, platform := r4 600 500 240 40 }, { trigger := r4 1280 300 120 80, platform := r4 1400 300 240 40 }]
    crushers := [{ rect := r4 2400 20 80 80, slam_height := 550 }, { rect := r4 3000 20 80 80, slam_height := 550 }, { rect := r4 3800 100 80 80, slam_height := 400 }] },
  { id := 5
    name := "Level 5: Crushing Depths"
    spawn := (80, 580)
    goal := r4 4400 620 120 200
    platforms := [r4 0 620 400 40, r4 600 540 320 40, r4 1120 420 320 40, r4 1680 300 320 40, r4 2200 420 320 40, r4 2800 540 320 40, r4 3400 620 1200 40]
    static_traps := [r4 400 620 200 40, r4 920 620 200 40, r4 1440 620 240 40, r4 2000 620 200 40, r4 2520 620 280 40, r4 3120 620 280 40]
    oscillators := [{ rect := r4 1120 340 80 40, axis := "y", amplitude := (80 : ℚ), speed := (4 : ℚ) }, { rect := r4 2600 260 120 40, axis := "x", amplitude := (120 : ℚ), speed := (3 : ℚ) }, { rect := r4 1680 220 80 40, axis := "y", amplitude := (60 : ℚ), speed := (9/2 : ℚ) }]
    triggers := [{ trigger := r4 1400 380 80 80, spike := r4 1480 420 40 40 }, { trigger := r4 2800 500 80 80, spike := r4 2880 540 40 40 }, { trigger := r4 3600 580 120 80, spike := r4 3720 620 40 40 }]
    axes := [{ pivot := (2000, 100), length := 180, swing_degrees := (90 : ℚ), speed := (5/2 : ℚ) }, { pivot := (3600, 180), length := 140, swing_degrees := (100 : ℚ), speed := (3 : ℚ) }, { pivot := (800, 260), length := 100, swing_degrees := (60 : ℚ), speed := (4 : ℚ) }]
    chasers := [{ spawn := (4200, 260), speed := (240 : ℚ), max_time := (4 : ℚ) }, { spawn := (200, 460), speed := (180 : ℚ), max_time := (5 : ℚ) }, { spawn := (2400, 340), speed := (210 : ℚ), max_time := (3 : ℚ) }]
    disappear := [{ trigger := r4 2000 340 80 80, platform := r4 2200 420 320 40 }, { trigger := r4 600 500 80 80, platform := r4 600 540 320 40 }]
    crushers := [{ rect := r4 1800 100 80 80, slam_height := 450 }, { rect := r4 4000 100 80 80, slam_height := 500 }, { rect := r4 4600 180 80 80, slam_height := 300 }] },
  { id := 6
    name := "Level 6: The Climb"
    spawn := (80, 580)
    goal := r4 2600 100 80 160
    platforms := [r4 0 620 400 40, r4 480 540 120 40, r4 720 420 120 40, r4 960 300 120 40, r4 1280 180 120 40, r4 1800 260 160 40, r4 2200 100 600 40]
    static_traps := [r4 400 620 2200 40]
    oscillators := [{ rect := r4 640 340 40 40, axis := "y", amplitude := (120 : ℚ), speed := (9/2 : ℚ) }, { rect := r4 1200 260 40 40, axis := "x", amplitude := (140 : ℚ), speed := (3 : ℚ) }, { rect := r4 1600 180 40 80, axis := "y", amplitude := (150 : ℚ), speed := (5 : ℚ) }]
    triggers := [{ trigger := r4 1280 140 80 80, spike := r4 1360 180 40 40 }, { trigger := r4 2200 60 120 80, spike := r4 2320 100 40 40 }, { trigger := r4 200 580 200 80, spike := r4 320 620 40 40 }]
    axes := [{ pivot := (1680, 20), length := 180, swing_degrees := (120 : ℚ), speed := (11/5 : ℚ) }, { pivot := (800, -60), length := 150, swing_degrees := (90 : ℚ), speed := (3 : ℚ) }, { pivot := (2320, -60), length := 130, swing_degrees := (45 : ℚ), speed := (4 : ℚ) }]
    chasers := [{ spawn := (2400, 260), speed := (250 : ℚ), max_time := (4 : ℚ) }, { spawn := (600, 180), speed := (200 : ℚ), max_time := (6 : ℚ) }]
    disappear := [{ trigger := r4 720 380 80 80, platform := r4 720 420 120 40 }, { trigger := r4 1280 100 80 80, platform := r4 1280 180 120 40 }]
    crushers := [{ rect := r4 1400 (-60) 80 80, slam_height := 500 }, { rect := r4 2200 (-60) 80 80, slam_height := 400 }] },
  { id := 7
    name := "Level 7: Panic"
    spawn := (80, 580)
    goal := r4 5200 500 80 160
    platforms := [r4 0 620 400 40, r4 600 540 160 40, r4 1000 460 160 40, r4 1400 380 160 40, r4 1800 460 160 40, r4 2200 540 160 40, r4 2600 620 2800 40]
    static_traps := [r4 400 620 4800 40]
    oscillators := [{ rect := r4 480 460 40 80, axis := "x", amplitude := (120 : ℚ), speed := (5 : ℚ) }, { rect := r4 1680 340 40 80, axis := "x", amplitude := (150 : ℚ), speed := (9/2 : ℚ) }, { rect := r4 2880 540 40 80, axis := "x", amplitude := (180 : ℚ), speed := (11/2 : ℚ) }, { rect := r4 4000 460 80 40, axis := "y", amplitude := (100 : ℚ), speed := (4 : ℚ) }]
    triggers := [{ trigger := r4 2600 580 200 80, spike := r4 2720 620 40 40 }, { trigger := r4 3400 580 200 80, spike := r4 3520 620 40 40 }, { trigger := r4 4200 580 200 80, spike := r4 4320 620 40 40 }]
    axes := [{ pivot := (3200, 180), length := 160, swing_degrees := (90 : ℚ), speed := (5/2 : ℚ) }]
    chasers := [{ spawn := (3600, 380), speed := (260 : ℚ), max_time := (9/2 : ℚ) }, { spawn := (4400, 380), speed := (280 : ℚ), max_time := (4 : ℚ) }, { spawn := (1600, 260), speed := (200 : ℚ), max_time := (5 : ℚ) }]
    disappear := [{ trigger := r4 1000 420 80 80, platform := r4 1000 460 160 40 }, { trigger := r4 1800 420 80 80, platform := r4 1800 460 160 40 }, { trigger := r4 3200 580 80 80, platform := r4 2600 620 400 40 }]
    crushers := [{ rect := r4 2000 100 80 80, slam_height := 450 }, { rect := r4 4000 100 80 80, slam_height := 500 }] },
  { id := 8
    name := "Level 8: Precision"
    spawn := (80, 580)
    goal := r4 3400 420 80 160
    platforms := [r4 0 620 200 40, r4 480 540 80 40, r4 880 420 80 40, r4 1280 300 80 40, r4 1680 420 80 40, r4 2080 540 80 40, r4 2600 460 1000 40]
    static_traps := [r4 200 620 3200 40]
    oscillators := [{ rect := r4 600 340 40 40, axis := "y", amplitude := (100 : ℚ), speed := (4 : ℚ) }, { rect := r4 1400 180 40 40, axis := "y", amplitude := (120 : ℚ), speed := (9/2 : ℚ) }, { rect := r4 880 260 40 40, axis := "x", amplitude := (80 : ℚ), speed := (3 : ℚ) }]
    triggers := [{ trigger := r4 2600 420 120 80, spike := r4 2680 460 40 40 }, { trigger := r4 3000 420 120 80, spike := r4 3080 460 40 40 }, { trigger := r4 1600 620 200 40, spike := r4 1680 620 40 40 }]
    axes := [{ pivot := (1120, 100), length := 180, swing_degrees := (60 : ℚ), speed := (3 : ℚ) }, { pivot := (1920, 100), length := 180, swing_degrees := (60 : ℚ), speed := (3 : ℚ) }, { pivot := (2600, 180), length := 140, swing_degrees := (100 : ℚ), speed := (5/2 : ℚ) }]
    chasers := [{ spawn := (3200, 260), speed := (220 : ℚ), max_time := (4 : ℚ) }, { spawn := (800, 180), speed := (180 : ℚ), max_time := (8 : ℚ) }]
    disappear := [{ trigger := r4 1280 260 80 80, platform := r4 1280 300 80 40 }, { trigger := r4 480 460 80 80, platform := r4 480 540 80 40 }]
    crushers := [{ rect := r4 1120 100 80 80, slam_height := 400 }, { rect := r4 2080 100 80 80, slam_height := 400 }] },
  { id := 9
    name := "Level 9: The Gauntlet"
    spawn := (80, 580)
    goal := r4 5000 500 120 200
    platforms := [r4 0 620 400 40, r4 600 540 320 40, r4 1200 420 320 40, r4 1800 300 320 40, r4 2400 420 320 40, r4 3000 540 320 40, r4 3600 620 1600 40]
    static_traps := [r4 400 620 400 40, r4 920 620 600 40, r4 1520 620 600 40, r4 2120 620 600 40, r4 2720 620 600 40, r4 3320 620 600 40]
    oscillators := [{ rect := r4 1800 180 80 40, axis := "y", amplitude := (100 : ℚ), speed := (4 : ℚ) }, { rect := r4 3400 180 80 40, axis := "y", amplitude := (120 : ℚ), speed := (7/2 : ℚ) }, { rect := r4 2400 60 80 40, axis := "x", amplitude := (100 : ℚ), speed := (5/2 : ℚ) }]
    triggers := [{ trigger := r4 1200 380 120 80, spike := r4 1320 420 40 40 }, { trigger := r4 4000 580 200 80, spike := r4 4200 620 40 40 }]
    axes := [{ pivot := (1000, 60), length := 180, swing_degrees := (90 : ℚ), speed := (5/2 : ℚ) }, { pivot := (2600, 60), length := 180, swing_degrees := (120 : ℚ), speed := (2 : ℚ) }, { pivot := (4200, 60), length := 180, swing_degrees := (180 : ℚ), speed := (14/5 : ℚ) }]
    chasers := [{ spawn := (4400, 100), speed := (260 : ℚ), max_time := (9/2 : ℚ) }, { spawn := (800, 260), speed := (200 : ℚ), max_time := (6 : ℚ) }, { spawn := (2800, 180), speed := (240 : ℚ), max_time := (4 : ℚ) }]
    disappear := [{ trigger := r4 1800 260 80 80, platform := r4 1800 300 320 40 }, { trigger := r4 3000 500 80 80, platform := r4 3000 540 320 40 }]
    crushers := [{ rect := r4 2000 20 80 80, slam_height := 550 }, { rect := r4 3200 20 80 80, slam_height := 500 }, { rect := r4 4400 20 80 80, slam_height := 600 }] },
  { id := 10
    name := "Level 10: Betrayal"
    spawn := (80, 580)
    goal := r4 5600 340 80 160
    platforms := [r4 0 620 480 40, r4 720 540 160 40, r4 1120 460 160 40, r4 1520 380 160 40, r4 2000 500 400 40, r4 2800 420 400 40, r4 3600 340 400 40, r4 4400 540 400 40, r4 5200 340 800 40]
    static_traps := [r4 480 620 5120 40]
    oscillators := [{ rect := r4 600 420 40 40, axis := "y", amplitude := (80 : ℚ), speed := (4 : ℚ) }, { rect := r4 1800 300 40 40, axis := "x", amplitude := (100 : ℚ), speed := (3 : ℚ) }, { rect := r4 4400 180 80 40, axis := "y", amplitude := (150 : ℚ), speed := (5 : ℚ) }]
    triggers := [{ trigger := r4 2000 460 120 80, spike := r4 2080 500 40 40 }, { trigger := r4 3600 300 120 80, spike := r4 3680 340 40 40 }, { trigger := r4 5200 300 120 80, spike := r4 5400 340 40 40 }]
    axes := [{ pivot := (2400, 60), length := 140, swing_degrees := (180 : ℚ), speed := (9/5 : ℚ) }, { pivot := (4000, 60), length := 140, swing_degrees := (180 : ℚ), speed := (11/5 : ℚ) }, { pivot := (1200, 180), length := 120, swing_degrees := (90 : ℚ), speed := (3 : ℚ) }]
    chasers := [{ spawn := (4800, 260), speed := (280 : ℚ), max_time := (3 : ℚ) }, { spawn := (400, 460), speed := (220 : ℚ), max_time := (5 : ℚ) }]
    disappear := [{ trigger := r4 1520 340 80 80, platform := r4 1520 380 160 40 }, { trigger := r4 2800 380 80 80, platform := r4 2800 420 400 40 }, { trigger := r4 4400 500 80 80, platform := r4 4400 540 400 40 }]
    crushers := [{ rect := r4 2000 20 80 80, slam_height := 550 }, { rect := r4 3600 20 80 80, slam_height := 500 }] },
  { id := 11
    name := "Level 11: Chaos"
    spawn := (80, 580)
    goal := r4 6400 260 80 200
    platforms := [r4 0 620 480 40, r4 600 500 400 40, r4 1400 380 400 40, r4 2200 260 400 40, r4 3000 140 400 40, r4 3800 260 400 40, r4 4600 380 400 40, r4 5400 500 400 40, r4 6200 260 800 40]
    static_traps := [r4 400 620 6000 40]
    oscillators := [{ rect := r4 800 180 80 40, axis := "y", amplitude := (120 : ℚ), speed := (5 : ℚ) }, { rect := r4 2400 60 80 40, axis := "x", amplitude := (150 : ℚ), speed := (4 : ℚ) }, { rect := r4 4000 180 80 40, axis := "y", amplitude := (120 : ℚ), speed := (5 : ℚ) }, { rect := r4 5600 60 80 40, axis := "x", amplitude := (120 : ℚ), speed := (9/2 : ℚ) }]
    triggers := [{ trigger := r4 1400 340 120 80, spike := r4 1480 380 40 40 }, { trigger := r4 5400 460 120 80, spike := r4 5480 500 40 40 }, { trigger := r4 3000 100 120 80, spike := r4 3120 140 40 40 }, { trigger := r4 3800 220 120 80, spike := r4 3920 260 40 40 }]
    axes := [{ pivot := (1800, 20), length := 180, swing_degrees := (180 : ℚ), speed := (2 : ℚ) }, { pivot := (3400, -60), length := 200, swing_degrees := (360 : ℚ), speed := (3 : ℚ) }, { pivot := (5000, 20), length := 180, swing_degrees := (180 : ℚ), speed := (2 : ℚ) }, { pivot := (6400, 60), length := 150, swing_degrees := (90 : ℚ), speed := (4 : ℚ) }]
    chasers := [{ spawn := (2000, 60), speed := (280 : ℚ), max_time := (4 : ℚ) }, { spawn := (5600, 60), speed := (300 : ℚ), max_time := (7/2 : ℚ) }, { spawn := (200, 260), speed := (250 : ℚ), max_time := (6 : ℚ) }]
    disappear := [{ trigger := r4 3000 100 80 80, platform := r4 3000 140 400 40 }, { trigger := r4 2200 220 80 80, platform := r4 2200 260 400 40 }]
    crushers := [{ rect := r4 1400 (-60) 80 80, slam_height := 500 }, { rect := r4 4600 (-60) 80 80, slam_height := 500 }] },
  { id := 12
    name := "Level 12: The Gatekeeper"
    spawn := (80, 580)
    goal := r4 7200 340 120 200
    platforms := [r4 0 620 400 40, r4 600 460 80 40, r4 1000 340 80 40, r4 1400 220 80 40, r4 1800 100 80 40, r4 2200 (-20) 80 40, r4 3200 60 120 40, r4 4200 180 120 40, r4 5200 300 120 40, r4 6200 420 120 40, r4 7000 340 1200 40]
    static_traps := [r4 400 620 6800 40]
    oscillators := [{ rect := r4 680 260 80 160, axis := "y", amplitude := (150 : ℚ), speed := (4 : ℚ) }, { rect := r4 1880 20 80 160, axis := "y", amplitude := (150 : ℚ), speed := (9/2 : ℚ) }, { rect := r4 3600 (-60) 200 40, axis := "x", amplitude := (250 : ℚ), speed := (3 : ℚ) }, { rect := r4 4400 (-140) 80 40, axis := "y", amplitude := (200 : ℚ), speed := (7/2 : ℚ) }]
    triggers := [{ trigger := r4 7000 300 200 80, spike := r4 7200 340 40 40 }, { trigger := r4 3200 20 120 80, spike := r4 3320 60 40 40 }]
    axes := [{ pivot := (5600, -60), length := 250, swing_degrees := (360 : ℚ), speed := (5 : ℚ) }, { pivot := (6400, 60), length := 200, swing_degrees := (360 : ℚ), speed := (4 : ℚ) }, { pivot := (2400, -140), length := 180, swing_degrees := (360 : ℚ), speed := (3 : ℚ) }]
    chasers := [{ spawn := (200, 420), speed := (350 : ℚ), max_time := (4 : ℚ) }, { spawn := (3400, 60), speed := (380 : ℚ), max_time := (7/2 : ℚ) }, { spawn := (6000, 260), speed := (300 : ℚ), max_time := (4 : ℚ) }]
    disappear := [{ trigger := r4 1400 180 80 80, platform := r4 1400 220 80 40 }, { trigger := r4 5200 260 80 80, platform := r4 5200 300 120 40 }, { trigger := r4 600 420 80 80, platform := r4 600 460 80 40 }]
    crushers := [{ rect := r4 2800 (-140) 80 80, slam_height := 650 }, { rect := r4 6000 (-60) 80 80, slam_height := 600 }, { rect := r4 4000 (-60) 80 80, slam_height := 550 }] },
  { id := 13
    name := "BOSS: The Devil's Throne"
    spawn := (80, 580)
    goal := r4 8000 460 160 320
    platforms := [r4 0 620 600 40, r4 800 500 240 40, r4 1400 340 240 40, r4 2000 180 240 40, r4 2800 60 800 40, r4 4000 180 400 40, r4 5000 340 400 40, r4 6000 500 400 40, r4 7000 620 1600 40]
    static_traps := [r4 600 620 7400 40]
    oscillators := [{ rect := r4 1200 140 80 120, axis := "y", amplitude := (200 : ℚ), speed := (5 : ℚ) }, { rect := r4 4400 20 160 40, axis := "x", amplitude := (300 : ℚ), speed := (4 : ℚ) }, { rect := r4 6400 460 80 40, axis := "y", amplitude := (150 : ℚ), speed := (6 : ℚ) }, { rect := r4 400 420 80 40, axis := "y", amplitude := (40 : ℚ), speed := (3 : ℚ) }]
    triggers := [{ trigger := r4 3000 20 200 80, spike := r4 3120 60 40 40 }, { trigger := r4 7400 580 200 80, spike := r4 7600 620 40 40 }, { trigger := r4 2000 140 120 80, spike := r4 2120 180 40 40 }, { trigger := r4 4800 260 120 80, spike := r4 5000 340 40 40 }]
    axes := [{ pivot := (4800, -140), length := 250, swing_degrees := (360 : ℚ), speed := (5/2 : ℚ) }, { pivot := (6000, -60), length := 220, swing_degrees := (360 : ℚ), speed := (3 : ℚ) }, { pivot := (1600, -140), length := 180, swing_degrees := (180 : ℚ), speed := (2 : ℚ) }, { pivot := (7200, 60), length := 140, swing_degrees := (90 : ℚ), speed := (5 : ℚ) }]
    chasers := [{ spawn := (2400, -140), speed := (320 : ℚ), max_time := (6 : ℚ) }, { spawn := (7200, 460), speed := (400 : ℚ), max_time := (4 : ℚ) }, { spawn := (400, 260), speed := (350 : ℚ), max_time := (8 : ℚ) }, { spawn := (4800, 60), speed := (380 : ℚ), max_time := (5 : ℚ) }]
    disappear := [{ trigger := r4 2000 140 80 80, platform := r4 2000 180 240 40 }, { trigger := r4 5000 300 80 80, platform := r4 5000 340 400 40 }, { trigger := r4 7000 580 80 80, platform := r4 7000 620 400 40 }, { trigger := r4 1400 260 80 80, platform := r4 1400 340 240 40 }]
    crushers := [{ rect := r4 1600 (-220) 80 80, slam_height := 700 }, { rect := r4 3600 (-220) 80 80, slam_height := 750 }, { rect := r4 6400 (-220) 80 80, slam_height := 700 }, { rect := r4 7600 (-140) 80 80, slam_height := 600 }, { rect := r4 800 (-220) 80 80, slam_height := 500 }] }
]

-- ---------------------------------------------------------------------------
-- level_manager.py: LevelManager runtime state and operations
-- ---------------------------------------------------------------------------

/-- Runtime state of the LevelManager (mutable fields of the Python object).
Decoration sprinkles are rendering-only random data and are not modelled. -/
structure LevelState where
  current_level_index : ℕ
  level_id : ℤ
  platforms : List Rect
  static_traps : List Rect
  goal_rect : Option Rect
  spawn_point : ℤ × ℤ
  current_attempts : ℕ
  level_length : ℤ
  oscillators : List OscillatingHazard
  trigger_spikes : List TriggerSpike
  swing_axes : List SwingingAxe
  chasers : List ChasingHazard
  disappearing_platforms : List DisappearingPlatform
  crushing_hazards : List CrushingHazard
deriving DecidableEq

/-- LevelManager.__init__ with the default level_id = 1 (module-level
singleton construction; lists start empty until load_level runs). -/
def initialLevelState : LevelState :=
  { current_level_index := ((max 0 (1 - 1) : ℤ) % (LEVEL_BLUEPRINTS.length : ℤ)).toNat
    level_id := 1
    platforms := []
    static_traps := []
    goal_rect := none
    spawn_point := (0, 0)
    current_attempts := 0
    level_length := LEVEL_LENGTH
    oscillators := []
    trigger_spikes := []
    swing_axes := []
    chasers := []
    disappearing_platforms := []
    crushing_hazards := [] }

/-- Blueprint selected for an explicit level index: Python resolves
`index % len(LEVEL_BLUEPRINTS)`, which for ints is Euclidean remainder. -/
def resolveIndex (i : ℤ) : ℕ := (i % (LEVEL_BLUEPRINTS.length : ℤ)).toNat

def blueprintAt (n : ℕ) : Blueprint := LEVEL_BLUEPRINTS.getD n default

/-- The solid-platform list built by load_level: the blueprint's platforms
plus each disappearing-platform target appended when not already present. -/
def bpPlatforms (bp : Blueprint) : List Rect :=
  bp.disappear.foldl
    (fun ps e => if e.platform ∈ ps then ps else ps ++ [e.platform])
    bp.platforms

def bpDisappearing (bp : Blueprint) : List DisappearingPlatform :=
  bp.disappear.map (fun e =>
    { trigger_rect := e.trigger, target_platform_rect := e.platform,
      is_removed := false })

/-- LevelManager.load_level: optional index resolved modulo the blueprint
count; all runtime lists rebuilt wholesale from the selected blueprint.
Total — there is no failure path. -/
def load_level (index : Option ℤ) (s : LevelState) : LevelState :=
  let idx := match index with
    | some i => resolveIndex i
    | none => s.current_level_index
  let bp := blueprintAt idx
  let goal := bp.goal
  { s with
    current_level_index := idx
    level_id := bp.id
    spawn_point := bp.spawn
    platforms := bpPlatforms bp
    static_traps := bp.static_traps
    goal_rect := some goal
    level_length := max (goal.right + TILE_SIZE) LEVEL_LENGTH
    disappearing_platforms := bpDisappearing bp
    oscillators := bp.oscillators.map (fun e =>
      mkOscillatingHazard e.rect e.axis e.amplitude e.speed)
    trigger_spikes := bp.triggers.map (fun e => mkTriggerSpike e.trigger e.spike)
    swing_axes := bp.axes.map (fun e =>
      mkSwingingAxe e.pivot e.length e.swing_degrees e.speed)
    chasers := bp.chasers.map (fun e => mkChasingHazard e.spawn e.speed e.max_time)
    crushing_hazards := bp.crushers.map (fun e =>
      mkCrushingHazard e.rect e.slam_height) }

/-- The disappearing-platform pass of update_hazards: iterate the list in
order; after each platform's update, when it is marked removed and its target
rect is in the solid-platform list, remove that rect (Python list.remove:
first occurrence). -/
def dpPass (dt : ℚ) (player_rect : Option Rect) :
    List DisappearingPlatform → List Rect → List DisappearingPlatform × List Rect
  | [], ps => ([], ps)
  | dp :: rest, ps =>
    let dp2 := dp.update dt player_rect
    let ps2 := if dp2.is_removed = true ∧ dp2.target_platform_rect ∈ ps then
                 ps.erase dp2.target_platform_rect
               else ps
    let r := dpPass dt player_rect rest ps2
    (dp2 :: r.1, r.2)

/-- LevelManager.update_hazards: update every hazard list in a fixed order,
then run the disappearing-platform pass, which also shrinks the platform
list. -/
def update_hazards (F : FloatOracle) (dt : ℚ) (player_rect : Rect)
    (s : LevelState) : LevelState :=
  let pr : Option Rect := some player_rect
  let dpres := dpPass dt pr s.disappearing_platforms s.platforms
  { s with
    oscillators := s.oscillators.map (fun o => o.update F dt pr)
    trigger_spikes := s.trigger_spikes.map (fun t => t.update dt pr)
    swing_axes := s.swing_axes.map (fun a => a.update F dt pr)
    chasers := s.chasers.map (fun c => c.update dt pr)
    crushing_hazards := s.crushing_hazards.map (fun c => c.update dt pr)
    disappearing_platforms := dpres.1
    platforms := dpres.2 }

/-- LevelManager.check_hazard_collision: true when the rect collides with any
static trap or any live hazard (short-circuiting disjunction). -/
def check_hazard_collision (s : LevelState) (rect : Rect) : Bool :=
  s.static_traps.any (fun trap => trap.colliderect rect) ||
  s.oscillators.any (fun o => o.collides rect) ||
  s.trigger_spikes.any (fun t => t.collides rect) ||
  s.swing_axes.any (fun a => a.collides rect) ||
  s.chasers.any (fun c => c.collides rect) ||
  s.crushing_hazards.any (fun c => c.collides rect)

def reset_attempts (s : LevelState) : LevelState :=
  { s with current_attempts := 0 }

def increment_attempts (s : LevelState) : LevelState :=
  { s with current_attempts := s.current_attempts + 1 }

/-- LevelManager.calculate_star_rating (FR4.0): 3 stars for at most 3
attempts, 2 stars for at most 5, otherwise 1. -/
def calculate_star_rating (s : LevelState) : ℕ :=
  if s.current_attempts ≤ 3 then 3
  else if s.current_attempts ≤ 5 then 2
  else 1

-- ---------------------------------------------------------------------------
-- main.py: Player controller
-- ---------------------------------------------------------------------------

/-- main.Player mutable physics state (rendering-only fields such as
stretch/breath/walk timers and the sprite are not modelled). -/
structure PlayerState where
  rect : Rect
  velx : ℚ
  vely : ℚ
  on_ground : Bool
  coyote_timer : ℚ
  jump_buffer_timer : ℚ
  facing_right : Bool
  jumps_left : ℤ
deriving DecidableEq

/-- Player.__init__ at a spawn point: a TILE_SIZE × 1.5·TILE_SIZE rectangle,
zero velocity, two jumps. -/
def mkPlayer (spawn : ℤ × ℤ) : PlayerState :=
  { rect := ⟨spawn.1, spawn.2, TILE_SIZE, 60⟩
    velx := 0
    vely := 0
    on_ground := false
    coyote_timer := 0
    jump_buffer_timer := 0
    facing_right := true
    jumps_left := 2 }

/-- Player.handle_input: horizontal velocity from left/right intent; when
both are pressed the right key wins (it is tested second). -/
def handle_input (left right : Bool) (p : PlayerState) : PlayerState :=
  let p := { p with velx := 0 }
  let p := if left then { p with velx := -PLAYER_SPEED, facing_right := false } else p
  if right then { p with velx := PLAYER_SPEED, facing_right := true } else p

/-- Player.jump: arm the jump buffer. -/
def PlayerState.jump (p : PlayerState) : PlayerState :=
  { p with jump_buffer_timer := JUMP_BUFFER_TIME }

/-- The gravity step of Player.update: add per-frame gravity, clamp to the
maximum fall speed. -/
def gravityStep (v : ℚ) : ℚ := min (v + GRAVITY) MAX_FALL_SPEED

/-- Player._resolve_collisions: one pass over the platform list for a given
axis string, snapping the rect to the platform edge and zeroing the velocity
on contact (downward contact also sets on_ground). -/
def PlayerState.resolve_collisions : PlayerState → String → List Rect → PlayerState
  | p, _, [] => p
  | p, axis, plat :: rest =>
    let p2 :=
      if p.rect.colliderect plat = true then
        if axis = "x" then
          let r := p.rect
          let r2 := if 0 < p.velx then { r with x := plat.x - r.w }
                    else if p.velx < 0 then { r with x := plat.x + plat.w }
                    else r
          { p with rect := r2, velx := 0 }
        else
          if 0 < p.vely then
            { p with
              rect := { p.rect with y := plat.y - p.rect.h }
              vely := 0
              on_ground := true }
          else if p.vely < 0 then
            { p with rect := { p.rect with y := plat.y + plat.h }, vely := 0 }
          else p
      else p
    p2.resolve_collisions axis rest

/-- Player._consume_buffered_jump: ground/coyote jump at full impulse, else
air jump at 85% impulse while air-jumps remain; returns the updated state and
whether a jump fired. -/
def PlayerState.consume_buffered_jump (p : PlayerState) : PlayerState × Bool :=
  if 0 < p.jump_buffer_timer then
    if p.on_ground = true ∨ 0 < p.coyote_timer then
      ({ p with
          vely := JUMP_FORCE
          on_ground := false
          jump_buffer_timer := 0
          coyote_timer := 0
          jumps_left := 1 }, true)
    else if 0 < p.jumps_left then
      ({ p with
          vely := JUMP_FORCE * (85/100)
          jump_buffer_timer := 0
          jumps_left := p.jumps_left - 1 }, true)
    else (p, false)
  else (p, false)

/-- Player.update: timers decay; gravity; horizontal move + resolution +
clamp into [0, level_length - width]; vertical move + resolution; coyote
bookkeeping; buffered-jump resolution.  Returns the new state and whether a
jump impulse fired. -/
def PlayerState.update (p : PlayerState) (dt : ℚ) (platforms : List Rect)
    (level_length : ℤ) : PlayerState × Bool :=
  let was_on_ground := p.on_ground
  let p := { p with
    jump_buffer_timer := max 0 (p.jump_buffer_timer - dt)
    coyote_timer := max 0 (p.coyote_timer - dt) }
  let p := { p with vely := gravityStep p.vely }
  let p := { p with rect := { p.rect with x := p.rect.x + pyInt p.velx } }
  let p := p.resolve_collisions "x" platforms
  let p := { p with rect := { p.rect with
    x := max 0 (min p.rect.x (level_length - p.rect.w)) } }
  let p := { p with rect := { p.rect with y := p.rect.y + pyInt p.vely } }
  let p := { p with on_ground := false }
  let p := p.resolve_collisions "y" platforms
  let p :=
    if p.on_ground = true then { p with jumps_left := 2, coyote_timer := COYOTE_TIME }
    else if was_on_ground = true then { p with coyote_timer := COYOTE_TIME }
    else p
  p.consume_buffered_jump

-- ---------------------------------------------------------------------------
-- main.py: Game._update_play (core slice: physics, death and victory checks)
-- ---------------------------------------------------------------------------

/-- Outcome of one playing-state frame. -/
inductive FrameOutcome where
  | death
  | victory
  | playing
deriving DecidableEq

/-- Game._update_play, core slice: advance the player, update hazards, then
check death (world-bottom threshold or hazard collision; increments the
attempt counter via handle_death) and only if that fails check the inflated
goal.  Camera, sound, particles and persistence are presentation-side. -/
def update_play (F : FloatOracle) (s : LevelState) (p : PlayerState) (dt : ℚ) :
    FrameOutcome × LevelState × PlayerState :=
  let pres := p.update dt s.platforms s.level_length
  let p1 := pres.1
  let s1 := update_hazards F dt p1.rect s
  if SCREEN_HEIGHT + 200 < p1.rect.top ∨ check_hazard_collision s1 p1.rect = true then
    (FrameOutcome.death, increment_attempts s1, p1)
  else
    match s1.goal_rect with
    | some g =>
      if g.truthy = true ∧ p1.rect.colliderect (g.inflate 25 25) = true then
        (FrameOutcome.victory, s1, p1)
      else (FrameOutcome.playing, s1, p1)
    | none => (FrameOutcome.playing, s1, p1)

-- ---------------------------------------------------------------------------
-- Theorems
-- ---------------------------------------------------------------------------

theorem LEVEL_BLUEPRINTS_length : LEVEL_BLUEPRINTS.length = 13 := rfl

/-- C1: calculate_star_rating returns 3 iff the attempt counter is ≤ 3,
2 iff it is between 4 and 5, 1 iff it is ≥ 6, and always returns a value in
{1, 2, 3}; it reads nothing but the attempt counter. -/
theorem calculate_star_rating_spec (s : LevelState) :
    (calculate_star_rating s = 3 ↔ s.current_attempts ≤ 3) ∧
    (calculate_star_rating s = 2 ↔ 4 ≤ s.current_attempts ∧ s.current_attempts ≤ 5) ∧
    (calculate_star_rating s = 1 ↔ 6 ≤ s.current_attempts) ∧
    (calculate_star_rating s = 1 ∨ calculate_star_rating s = 2 ∨
      calculate_star_rating s = 3) := by
  unfold calculate_star_rating
  split_ifs with h1 h2 <;> omega

/-- C2: load_level with any integer index resolves it modulo the 13
blueprints, is total (the embedding has no failure path), selects exactly the
blueprint at index i mod 13, and leaves the current level index in [0, 13). -/
theorem load_level_modulo_spec (i : ℤ) (s : LevelState) :
    LEVEL_BLUEPRINTS.length = 13 ∧
    (load_level (some i) s).current_level_index = (i % 13).toNat ∧
    (load_level (some i) s).current_level_index < 13 ∧
    (load_level (some i) s).level_id = (blueprintAt (i % 13).toNat).id := by
  have h0 : 0 ≤ i % 13 := Int.emod_nonneg i (by norm_num)
  have h1 : i % 13 < 13 := Int.emod_lt_of_pos i (by norm_num)
  have hres : resolveIndex i = (i % 13).toNat := by
    unfold resolveIndex
    norm_num [LEVEL_BLUEPRINTS_length]
  refine ⟨rfl, ?_, ?_, ?_⟩
  · show resolveIndex i = (i % 13).toNat
    exact hres
  · show resolveIndex i < 13
    rw [hres]
    omega
  · show (blueprintAt (resolveIndex i)).id = (blueprintAt (i % 13).toNat).id
    rw [hres]

/-- C8 is false on the code: load_level performs no blueprint validation and
never raises.  Blueprint index 2 ("Level 3: Trust Issues") has its goal's
right edge at 4120, beyond the nominal LEVEL_LENGTH = 3840; load_level
succeeds anyway and silently alters the geometry, setting level_length to
goal.right + TILE = 4160. -/
theorem load_level_no_failfast_counterexample :
    (load_level (some 2) initialLevelState).goal_rect = some ⟨4000, 620, 120, 120⟩ ∧
    LEVEL_LENGTH < 4000 + 120 ∧
    (load_level (some 2) initialLevelState).level_length = 4160 ∧
    (load_level (some 2) initialLevelState).level_length ≠ LEVEL_LENGTH := by
  refine ⟨rfl, by decide, rfl, by decide⟩

/-- C8 amended: load_level never fails on a blueprint whose goal lies outside
the nominal level length; instead it always succeeds and silently extends the
level length to max(goal.right + TILE, LEVEL_LENGTH), so the goal always fits
inside the playable level. -/
theorem load_level_extends_length_spec (i : ℤ) (s : LevelState) :
    ∃ g, (load_level (some i) s).goal_rect = some g ∧
      (load_level (some i) s).level_length = max (g.right + TILE_SIZE) LEVEL_LENGTH :=
  ⟨(blueprintAt (resolveIndex i)).goal, rfl, rfl⟩

lemma pyInt_nonneg (q : ℚ) (hq : 0 ≤ q) : 0 ≤ pyInt q := by
  simp only [pyInt, if_pos hq]
  exact Int.floor_nonneg.mpr hq

/-- C4: buffered-jump resolution at the end of Player.update.  With the
buffer armed and ground or coyote time available: full impulse, both timers
cleared, exactly one air-jump left, jump signalled.  Otherwise with the
buffer armed and air-jumps remaining: 85% impulse, one air-jump consumed,
jump signalled.  Otherwise the state is unchanged and no jump is signalled. -/
theorem consume_buffered_jump_spec (p : PlayerState) :
    (0 < p.jump_buffer_timer → (p.on_ground = true ∨ 0 < p.coyote_timer) →
      p.consume_buffered_jump =
        ({ p with
            vely := JUMP_FORCE
            on_ground := false
            jump_buffer_timer := 0
            coyote_timer := 0
            jumps_left := 1 }, true)) ∧
    (0 < p.jump_buffer_timer → ¬ (p.on_ground = true ∨ 0 < p.coyote_timer) →
      0 < p.jumps_left →
      p.consume_buffered_jump =
        ({ p with
            vely := JUMP_FORCE * (85/100)
            jump_buffer_timer := 0
            jumps_left := p.jumps_left - 1 }, true)) ∧
    (¬ 0 < p.jump_buffer_timer ∨
       (¬ (p.on_ground = true ∨ 0 < p.coyote_timer) ∧ ¬ 0 < p.jumps_left) →
      p.consume_buffered_jump = (p, false)) := by
  refine ⟨?_, ?_, ?_⟩
  · intro hb hc
    simp only [PlayerState.consume_buffered_jump, if_pos hb, if_pos hc]
  · intro hb hc hj
    simp only [PlayerState.consume_buffered_jump, if_pos hb, if_neg hc, if_pos hj]
  · intro h
    rcases h with h | ⟨hc, hj⟩
    · simp only [PlayerState.consume_buffered_jump, if_neg h]
    · by_cases hb : 0 < p.jump_buffer_timer
      · simp only [PlayerState.consume_buffered_jump, if_pos hb, if_neg hc, if_neg hj]
      · simp only [PlayerState.consume_buffered_jump, if_neg hb]

/-- A grounded player with an armed jump buffer, for the C4 witness. -/
def pw1 : PlayerState :=
  { rect := ⟨80, 580, 40, 60⟩
    velx := 0
    vely := 0
    on_ground := true
    coyote_timer := 0
    jump_buffer_timer := 15/100
    facing_right := true
    jumps_left := 2 }

theorem consume_buffered_jump_spec_witness :
    pw1.consume_buffered_jump =
      ({ pw1 with
          vely := JUMP_FORCE
          on_ground := false
          jump_buffer_timer := 0
          coyote_timer := 0
          jumps_left := 1 }, true) :=
  (consume_buffered_jump_spec pw1).1 (by norm_num [pw1]) (Or.inl rfl)

/-- C5: a TriggerSpike's active flag is monotone under update for every dt
and player rect (including None); while inactive it never reports a
collision; and once the rise step runs with dt ≥ 0 its y coordinate moves
monotonically toward target_y without overshooting (so it never re-hides). -/
theorem trigger_spike_monotone_spec (t : TriggerSpike) (dt : ℚ)
    (pr : Option Rect) (r : Rect) :
    (t.active = true → (t.update dt pr).active = true) ∧
    (t.active = false → t.collides r = false) ∧
    (0 ≤ dt → 0 ≤ t.rise_speed → t.target_y ≤ t.rect.y →
      t.target_y ≤ (t.update dt pr).rect.y ∧ (t.update dt pr).rect.y ≤ t.rect.y) := by
  refine ⟨?_, ?_, ?_⟩
  · intro h
    simp only [TriggerSpike.update]
    have hA : ¬(t.active = false ∧ optTruthy pr = true ∧
        optCollide pr t.trigger_rect = true) := by simp [h]
    rw [if_neg hA]
    split_ifs with hrise
    · exact h
    · exact h
  · intro h
    simp [TriggerSpike.collides, h]
  · intro hdt hrs hy
    have hk : 0 ≤ pyInt (t.rise_speed * dt) := pyInt_nonneg _ (mul_nonneg hrs hdt)
    simp only [TriggerSpike.update]
    by_cases hA : (t.active = false ∧ optTruthy pr = true ∧
        optCollide pr t.trigger_rect = true)
    · rw [if_pos hA]
      split_ifs with hrise
      · refine ⟨le_max_left _ _, max_le (le_of_lt hrise.2) ?_⟩
        show t.rect.y - pyInt (t.rise_speed * dt) ≤ t.rect.y
        omega
      · exact ⟨hy, le_refl _⟩
    · rw [if_neg hA]
      split_ifs with hrise
      · refine ⟨le_max_left _ _, max_le (le_of_lt hrise.2) ?_⟩
        show t.rect.y - pyInt (t.rise_speed * dt) ≤ t.rect.y
        omega
      · exact ⟨hy, le_refl _⟩

/-- A concrete hidden spike whose trigger zone the witness player rect
overlaps, for the C5 witness. -/
def tsw : TriggerSpike := mkTriggerSpike ⟨960, 340, 80, 80⟩ ⟨1040, 380, 40, 40⟩

theorem trigger_spike_monotone_spec_witness :
    ({ tsw with active := true }.update 1 none).active = true ∧
    tsw.collides ⟨960, 340, 40, 60⟩ = false ∧
    ({ tsw with active := true }.update 1 none).rect.y ≤ { tsw with active := true }.rect.y :=
  ⟨(trigger_spike_monotone_spec { tsw with active := true } 1 none ⟨960, 340, 40, 60⟩).1 rfl,
   (trigger_spike_monotone_spec tsw 1 none ⟨960, 340, 40, 60⟩).2.1 rfl,
   ((trigger_spike_monotone_spec { tsw with active := true } 1 none
      ⟨960, 340, 40, 60⟩).2.2 (by norm_num) (by norm_num [tsw, mkTriggerSpike])
      (by norm_num [tsw, mkTriggerSpike])).2⟩

lemma resolve_y_keeps (p : PlayerState) (l : List Rect) :
    (PlayerState.resolve_collisions p "y" l).rect.x = p.rect.x ∧
    (PlayerState.resolve_collisions p "y" l).rect.w = p.rect.w := by
  induction l generalizing p with
  | nil => exact ⟨rfl, rfl⟩
  | cons plat rest ih =>
    simp only [PlayerState.resolve_collisions]
    rw [if_neg (show ¬("y" = "x") from by decide)]
    split_ifs with hc hv1 hv2
    all_goals exact ⟨(ih _).1, (ih _).2⟩

lemma resolve_x_keeps (p : PlayerState) (l : List Rect) :
    (PlayerState.resolve_collisions p "x" l).rect.w = p.rect.w := by
  induction l generalizing p with
  | nil => rfl
  | cons plat rest ih =>
    simp only [PlayerState.resolve_collisions]
    simp only [if_true]
    split_ifs with hc hv1 hv2
    all_goals exact ih _

lemma consume_buffered_jump_rect (p : PlayerState) :
    (p.consume_buffered_jump).1.rect = p.rect := by
  unfold PlayerState.consume_buffered_jump
  split_ifs <;> rfl

/-- C3: after any single Player.update call (hence after any sequence of
them), with any inputs, any dt ≥ 0, any platform list and any level length at
least the player's width, the player's horizontal position lies in
[0, level_length - width]. -/
theorem player_update_x_bounds (p : PlayerState) (dt : ℚ) (platforms : List Rect)
    (level_length : ℤ) (hdt : 0 ≤ dt) (hw : p.rect.w ≤ level_length) :
    0 ≤ (p.update dt platforms level_length).1.rect.x ∧
    (p.update dt platforms level_length).1.rect.x ≤ level_length - p.rect.w := by
  simp only [PlayerState.update]
  rw [consume_buffered_jump_rect]
  split_ifs with h1 h2 <;>
  · rw [(resolve_y_keeps _ platforms).1, resolve_x_keeps]
    dsimp only
    constructor
    · exact le_max_left 0 _
    · exact max_le (by omega) (min_le_right _ _)

/-- Concrete instances for the C3 witness. -/
def pw2 : PlayerState :=
  { rect := ⟨80, 580, 40, 60⟩
    velx := 8
    vely := 0
    on_ground := true
    coyote_timer := 0
    jump_buffer_timer := 0
    facing_right := true
    jumps_left := 2 }

theorem player_update_x_bounds_witness :
    0 ≤ (pw2.update 1 [r4 0 620 400 40] 3840).1.rect.x ∧
    (pw2.update 1 [r4 0 620 400 40] 3840).1.rect.x ≤ 3840 - pw2.rect.w :=
  player_update_x_bounds pw2 1 [r4 0 620 400 40] 3840 (by norm_num) (by decide)

lemma gravityStep_iterate (v : ℚ) (n : ℕ) :
    gravityStep^[n + 1] v = min (v + ((n : ℚ) + 1) * GRAVITY) MAX_FALL_SPEED := by
  induction n with
  | zero =>
    show gravityStep v = _
    unfold gravityStep
    norm_num
  | succ n ih =>
    rw [Function.iterate_succ_apply', ih]
    unfold gravityStep
    rw [← min_add_add_right, min_assoc,
      min_eq_right (by norm_num [GRAVITY, MAX_FALL_SPEED] :
        MAX_FALL_SPEED ≤ MAX_FALL_SPEED + GRAVITY)]
    congr 1
    push_cast
    ring

/-- C7: the gravity step of Player.update (add 0.8, clamp at 14) never
produces a vertical velocity above the fall-speed cap, and from any starting
velocity there is a frame count after which the velocity equals exactly 14 on
every later frame — it plateaus at the cap without overshooting. -/
theorem gravity_plateau_spec (v : ℚ) :
    (∀ n : ℕ, gravityStep^[n + 1] v ≤ MAX_FALL_SPEED) ∧
    (∃ N : ℕ, ∀ m : ℕ, N ≤ m → gravityStep^[m] v = MAX_FALL_SPEED) := by
  constructor
  · intro n
    rw [gravityStep_iterate]
    exact min_le_right _ _
  · refine ⟨(⌈(MAX_FALL_SPEED - v) / GRAVITY⌉).toNat + 1, ?_⟩
    intro m hm
    obtain ⟨k, rfl⟩ : ∃ k, m = k + 1 := ⟨m - 1, by omega⟩
    rw [gravityStep_iterate]
    refine min_eq_right ?_
    have hg : (0 : ℚ) < GRAVITY := by norm_num [GRAVITY]
    have h1 : (MAX_FALL_SPEED - v) / GRAVITY ≤
        ((⌈(MAX_FALL_SPEED - v) / GRAVITY⌉).toNat : ℚ) := by
      refine le_trans (Int.le_ceil _) ?_
      exact_mod_cast Int.self_le_toNat _
    have h2 : ((⌈(MAX_FALL_SPEED - v) / GRAVITY⌉).toNat : ℚ) ≤ (k : ℚ) + 1 := by
      have hk : (⌈(MAX_FALL_SPEED - v) / GRAVITY⌉).toNat ≤ k + 1 := by omega
      exact_mod_cast hk
    have h3 := (div_le_iff₀ hg).mp (le_trans h1 h2)
    linarith

theorem gravity_plateau_spec_witness :
    gravityStep^[1] 0 ≤ MAX_FALL_SPEED ∧ gravityStep^[19] (0 : ℚ) = MAX_FALL_SPEED :=
  ⟨(gravity_plateau_spec 0).1 0, by
    rw [show (19 : ℕ) = 18 + 1 from rfl, gravityStep_iterate]
    norm_num [GRAVITY, MAX_FALL_SPEED]⟩

lemma oscillating_update_keeps (F : FloatOracle) (o : OscillatingHazard)
    (dt : ℚ) (pr : Option Rect) :
    (o.update F dt pr).axis = o.axis ∧
    (o.update F dt pr).rect.w = o.rect.w ∧
    (o.update F dt pr).rect.h = o.rect.h ∧
    (o.axis = "x" → (o.update F dt pr).rect.y = o.rect.y) ∧
    (¬ o.axis = "x" → (o.update F dt pr).rect.x = o.rect.x) := by
  unfold OscillatingHazard.update
  split_ifs with h <;> simp [h]

lemma oscillating_foldl_keeps (F : FloatOracle) (steps : List (ℚ × Option Rect))
    (o : OscillatingHazard) :
    (steps.foldl (fun a s => a.update F s.1 s.2) o).axis = o.axis ∧
    (steps.foldl (fun a s => a.update F s.1 s.2) o).rect.w = o.rect.w ∧
    (steps.foldl (fun a s => a.update F s.1 s.2) o).rect.h = o.rect.h ∧
    (o.axis = "x" → (steps.foldl (fun a s => a.update F s.1 s.2) o).rect.y = o.rect.y) ∧
    (¬ o.axis = "x" → (steps.foldl (fun a s => a.update F s.1 s.2) o).rect.x = o.rect.x) := by
  induction steps generalizing o with
  | nil => exact ⟨rfl, rfl, rfl, fun _ => rfl, fun _ => rfl⟩
  | cons s rest ih =>
    simp only [List.foldl_cons]
    obtain ⟨ha, hw, hh, hy, hx⟩ := oscillating_update_keeps F o s.1 s.2
    obtain ⟨ia, iw, ih2, iy, ix⟩ := ih (o.update F s.1 s.2)
    refine ⟨ia.trans ha, iw.trans hw, ih2.trans hh, ?_, ?_⟩
    · intro hax
      exact (iy (ha.symm ▸ hax)).trans (hy hax)
    · intro hax
      exact (ix (fun hcon => hax (ha ▸ hcon))).trans (hx hax)

/-- C10: for every OscillatingHazard built by the level loader and every
sequence of update calls (any dt values, any player rects, any behavior of
the float sine routine), only the configured axis coordinate of its current
rect ever changes: with axis "x" its y, width and height always equal the
base rect's; with any other axis value its x, width and height always equal
the base rect's. -/
theorem oscillating_frame_spec (F : FloatOracle) (rt : Rect) (axis : String)
    (amp spd : ℚ) (steps : List (ℚ × Option Rect)) :
    (axis = "x" →
      (steps.foldl (fun a s => a.update F s.1 s.2)
        (mkOscillatingHazard rt axis amp spd)).rect.y = rt.y ∧
      (steps.foldl (fun a s => a.update F s.1 s.2)
        (mkOscillatingHazard rt axis amp spd)).rect.w = rt.w ∧
      (steps.foldl (fun a s => a.update F s.1 s.2)
        (mkOscillatingHazard rt axis amp spd)).rect.h = rt.h) ∧
    (¬ axis = "x" →
      (steps.foldl (fun a s => a.update F s.1 s.2)
        (mkOscillatingHazard rt axis amp spd)).rect.x = rt.x ∧
      (steps.foldl (fun a s => a.update F s.1 s.2)
        (mkOscillatingHazard rt axis amp spd)).rect.w = rt.w ∧
      (steps.foldl (fun a s => a.update F s.1 s.2)
        (mkOscillatingHazard rt axis amp spd)).rect.h = rt.h) := by
  obtain ⟨_, hw, hh, hy, hx⟩ :=
    oscillating_foldl_keeps F steps (mkOscillatingHazard rt axis amp spd)
  exact ⟨fun hax => ⟨hy hax, hw, hh⟩, fun hax => ⟨hx hax, hw, hh⟩⟩

/-- Constant-value stand-in for the float trig routines, used by witnesses. -/
def F0 : FloatOracle := { sin := fun _ => 1, cos := fun _ => 1, radians := fun _ => 1 }

theorem oscillating_frame_spec_witness :
    ([((1 : ℚ), (none : Option Rect))].foldl (fun a s => a.update F0 s.1 s.2)
      (mkOscillatingHazard (r4 600 460 80 40) "x" 60 (5/2))).rect.y = 460 ∧
    ([((1 : ℚ), (none : Option Rect))].foldl (fun a s => a.update F0 s.1 s.2)
      (mkOscillatingHazard (r4 1600 420 80 40) "y" 100 3)).rect.x = 1600 :=
  ⟨((oscillating_frame_spec F0 (r4 600 460 80 40) "x" 60 (5/2)
      [((1 : ℚ), (none : Option Rect))]).1 rfl).1,
   ((oscillating_frame_spec F0 (r4 1600 420 80 40) "y" 100 3
      [((1 : ℚ), (none : Option Rect))]).2 (by decide)).1⟩

lemma dp_update_target (d : DisappearingPlatform) (dt : ℚ) (pr : Option Rect) :
    (d.update dt pr).target_platform_rect = d.target_platform_rect := by
  unfold DisappearingPlatform.update
  split_ifs <;> rfl

lemma dp_update_fired (d : DisappearingPlatform) (dt : ℚ) (pr : Option Rect)
    (h : d.is_removed = true ∨
      (optTruthy pr = true ∧ optCollide pr d.trigger_rect = true)) :
    (d.update dt pr).is_removed = true := by
  unfold DisappearingPlatform.update
  split_ifs with hc
  · rfl
  · rcases h with h | ⟨h1, h2⟩
    · exact h
    · cases hr : d.is_removed
      · exact absurd ⟨hr, h1, h2⟩ hc
      · rfl

lemma dpPass_not_mem (dt : ℚ) (pr : Option Rect) (dps : List DisappearingPlatform)
    (ps : List Rect) (r : Rect) (h : r ∉ ps) : r ∉ (dpPass dt pr dps ps).2 := by
  induction dps generalizing ps with
  | nil => exact h
  | cons d rest ih =>
    simp only [dpPass]
    apply ih
    split_ifs with hc
    · exact fun hm => h (List.mem_of_mem_erase hm)
    · exact h

lemma dpPass_removes (dt : ℚ) (pr : Option Rect) (dp : DisappearingPlatform)
    (dps : List DisappearingPlatform) :
    ∀ ps : List Rect, dp ∈ dps →
    ps.count dp.target_platform_rect ≤ 1 →
    (dp.is_removed = true ∨
      (optTruthy pr = true ∧ optCollide pr dp.trigger_rect = true)) →
    dp.target_platform_rect ∉ (dpPass dt pr dps ps).2 := by
  induction dps with
  | nil =>
    intro ps hmem
    cases hmem
  | cons d rest ih =>
    intro ps hmem hcount hfire
    simp only [dpPass]
    rcases List.mem_cons.mp hmem with rfl | hm2
    · apply dpPass_not_mem
      have hrem : (dp.update dt pr).is_removed = true := dp_update_fired dp dt pr hfire
      rw [dp_update_target, hrem]
      by_cases hmem2 : dp.target_platform_rect ∈ ps
      · rw [if_pos ⟨rfl, hmem2⟩]
        intro hin
        have h1 : 0 < ps.count dp.target_platform_rect := List.count_pos_iff.mpr hmem2
        have h2 : (ps.erase dp.target_platform_rect).count dp.target_platform_rect =
            ps.count dp.target_platform_rect - 1 := List.count_erase_self _ _
        have h3 : 0 < (ps.erase dp.target_platform_rect).count dp.target_platform_rect :=
          List.count_pos_iff.mpr hin
        omega
      · rw [if_neg (by simp [hmem2])]
        exact hmem2
    · refine ih _ hm2 ?_ hfire
      split_ifs with hc
      · exact le_trans (List.Sublist.count_le (List.erase_sublist _ _) _) hcount
      · exact hcount

/-- Every disappearing-platform target occurs exactly once in the solid
platform list produced by the loader, for each of the 13 blueprints. -/
lemma loaded_dp_count : ∀ n : Fin 13, ∀ dp ∈ bpDisappearing (blueprintAt n.val),
    (bpPlatforms (blueprintAt n.val)).count dp.target_platform_rect = 1 := by decide

/-- C6: (1) once a loaded DisappearingPlatform's trigger fires (its latch is
set, or the player rect passed to update_hazards intersects its trigger
zone), its target rect is absent from the platform list produced by that
update_hazards call, provided the target occurs at most once; (2) once
absent, the target stays absent under every later update_hazards call (until
load_level rebuilds the lists); (3) in every level the loader produces (any
index, any prior state), each disappearing target occurs exactly once in the
platform list, so (1) always applies. -/
theorem disappearing_platform_removal_spec :
    (∀ (F : FloatOracle) (s : LevelState) (dt : ℚ) (pr : Rect)
       (dp : DisappearingPlatform), dp ∈ s.disappearing_platforms →
       s.platforms.count dp.target_platform_rect ≤ 1 →
       (dp.is_removed = true ∨
         (pr.truthy = true ∧ pr.colliderect dp.trigger_rect = true)) →
       dp.target_platform_rect ∉ (update_hazards F dt pr s).platforms) ∧
    (∀ (F : FloatOracle) (s : LevelState) (dt : ℚ) (pr : Rect) (r : Rect),
       r ∉ s.platforms → r ∉ (update_hazards F dt pr s).platforms) ∧
    (∀ (i : ℤ) (s0 : LevelState) (dp : DisappearingPlatform),
       dp ∈ (load_level (some i) s0).disappearing_platforms →
       ((load_level (some i) s0).platforms).count dp.target_platform_rect = 1) := by
  refine ⟨?_, ?_, ?_⟩
  · intro F s dt pr dp hmem hcount hfire
    exact dpPass_removes dt (some pr) dp s.disappearing_platforms s.platforms
      hmem hcount hfire
  · intro F s dt pr r h
    exact dpPass_not_mem dt (some pr) s.disappearing_platforms s.platforms r h
  · intro i s0 dp hmem
    have hn : resolveIndex i < 13 := by
      unfold resolveIndex
      rw [LEVEL_BLUEPRINTS_length]
      have h0 : 0 ≤ i % (13 : ℤ) := Int.emod_nonneg i (by norm_num)
      have h1 : i % (13 : ℤ) < 13 := Int.emod_lt_of_pos i (by norm_num)
      omega
    exact loaded_dp_count ⟨resolveIndex i, hn⟩ dp hmem

/-- A level state holding one disappearing platform, for the C6 witness. -/
def s6 : LevelState :=
  { initialLevelState with
      platforms := [⟨1400, 500, 200, 40⟩]
      disappearing_platforms :=
        [{ trigger_rect := ⟨1400, 460, 80, 80⟩
           target_platform_rect := ⟨1400, 500, 200, 40⟩
           is_removed := false }] }

theorem disappearing_platform_removal_spec_witness :
    (⟨1400, 500, 200, 40⟩ : Rect) ∉
      (update_hazards F0 0 ⟨1400, 460, 40, 60⟩ s6).platforms :=
  disappearing_platform_removal_spec.1 F0 s6 0 ⟨1400, 460, 40, 60⟩
    { trigger_rect := ⟨1400, 460, 80, 80⟩
      target_platform_rect := ⟨1400, 500, 200, 40⟩
      is_removed := false }
    (by decide) (by decide) (Or.inr ⟨by decide, by decide⟩)

/-- C9: in the playing-state frame update, when after physics and hazard
updates the player both meets the death condition (rect.top beyond the
world-bottom threshold, or hazard collision) and intersects the inflated goal
in the same frame, the frame resolves as death: the attempt counter is
incremented and the victory outcome is not produced — the goal check is only
reached when the death check is false. -/
theorem death_priority_spec (F : FloatOracle) (s : LevelState) (p : PlayerState)
    (dt : ℚ)
    (hdeath : SCREEN_HEIGHT + 200 < (p.update dt s.platforms s.level_length).1.rect.top ∨
      check_hazard_collision
        (update_hazards F dt (p.update dt s.platforms s.level_length).1.rect s)
        (p.update dt s.platforms s.level_length).1.rect = true)
    (hgoal : ∃ g,
      (update_hazards F dt (p.update dt s.platforms s.level_length).1.rect s).goal_rect
          = some g ∧
      g.truthy = true ∧
      (p.update dt s.platforms s.level_length).1.rect.colliderect (g.inflate 25 25)
          = true) :
    (update_play F s p dt).1 = FrameOutcome.death ∧
    (update_play F s p dt).2.1.current_attempts = s.current_attempts + 1 ∧
    (update_play F s p dt).1 ≠ FrameOutcome.victory := by
  have h0 : (update_play F s p dt).1 = FrameOutcome.death ∧
      (update_play F s p dt).2.1.current_attempts = s.current_attempts + 1 := by
    simp only [update_play]
    rw [if_pos hdeath]
    exact ⟨rfl, rfl⟩
  refine ⟨h0.1, h0.2, ?_⟩
  rw [h0.1]
  decide

/-- A free-falling player below the world-bottom threshold, for the C9
witness. -/
def pw3 : PlayerState :=
  { rect := ⟨100, 1000, 40, 60⟩
    velx := 0
    vely := 0
    on_ground := false
    coyote_timer := 0
    jump_buffer_timer := 0
    facing_right := true
    jumps_left := 2 }

/-- A level state whose inflated goal overlaps the witness player, for the
C9 witness. -/
def s9 : LevelState :=
  { initialLevelState with goal_rect := some ⟨0, 900, 3000, 3000⟩ }

lemma pw3_update_rect :
    (pw3.update 0 s9.platforms s9.level_length).1.rect = ⟨100, 1000, 40, 60⟩ := by
  show (pw3.update 0 [] 3840).1.rect = _
  norm_num [pw3, PlayerState.update, PlayerState.resolve_collisions,
    PlayerState.consume_buffered_jump, pyInt, gravityStep, GRAVITY, MAX_FALL_SPEED,
    Int.floor_eq_zero_iff, Set.mem_Ico]

theorem death_priority_spec_witness :
    (update_play F0 s9 pw3 0).1 = FrameOutcome.death ∧
    (update_play F0 s9 pw3 0).2.1.current_attempts = s9.current_attempts + 1 ∧
    (update_play F0 s9 pw3 0).1 ≠ FrameOutcome.victory :=
  death_priority_spec F0 s9 pw3 0
    (Or.inl (by rw [pw3_update_rect]; decide))
    ⟨⟨0, 900, 3000, 3000⟩, rfl, by decide, by rw [pw3_update_rect]; decide⟩

end DevilRun
